import Mathlib

/-!
Verification of the Visit Engine of ping.js (synthetic-monitoring probe).

The definitions below are a shallow embedding of the JavaScript source:
strings are Lean strings, machine numbers are Nat, a navigation attempt is
modelled as a value of type Except String Observation (a caught fault with
the thrown Error message, or the observation built by visitOnce), and the
per-URL retry while-loop is fuel-indexed explicit state passing.  All string
operations are re-implemented structurally over character lists so that the
kernel can evaluate them on concrete inputs.
-/

set_option autoImplicit false

namespace TokopedCron

/-! ## JavaScript string primitives, modelled over character lists -/

/-- Is the first list a prefix of the second? Mirrors the prefix test behind
the JavaScript includes and startsWith operations. -/
def isPrefixList : List Char → List Char → Bool
  | [], _ => true
  | _ :: _, [] => false
  | a :: as, b :: bs => decide (a = b) && isPrefixList as bs

/-- Substring containment: containsSub haystack pat is true iff pat occurs
contiguously in haystack.  Mirrors JavaScript String.prototype.includes. -/
def containsSub : List Char → List Char → Bool
  | [], pat => pat.isEmpty
  | c :: rest, pat => isPrefixList pat (c :: rest) || containsSub rest pat

/-- Suffix test over character lists. -/
def isSuffixList (pat s : List Char) : Bool := isPrefixList pat.reverse s.reverse

/-- JavaScript s.includes(pat). -/
def jsIncludes (s pat : String) : Bool := containsSub s.data pat.data

/-- JavaScript s.startsWith(pre). -/
def jsStartsWith (s pre : String) : Bool := isPrefixList pre.data s.data

/-- JavaScript s.endsWith(suffix). -/
def jsEndsWith (s suffix : String) : Bool := isSuffixList suffix.data s.data

/-- ASCII lower-casing of one character, as toLowerCase acts on the header
line (the header sentinel check only involves ASCII). -/
def lowerChar (c : Char) : Char :=
  if 65 ≤ c.toNat && c.toNat ≤ 90 then Char.ofNat (c.toNat + 32) else c

/-- JavaScript s.toLowerCase() restricted to ASCII case mapping. -/
def jsToLower (s : String) : String := String.mk (s.data.map lowerChar)

/-- Strip leading and trailing whitespace from a character list. -/
def trimList (cs : List Char) : List Char :=
  ((cs.dropWhile Char.isWhitespace).reverse.dropWhile Char.isWhitespace).reverse

/-- JavaScript s.trim() (ASCII whitespace; the inputs involved are ASCII). -/
def jsTrim (s : String) : String := String.mk (trimList s.data)

/-- Split a character list at every occurrence of the separator c; n
separators yield n + 1 pieces, as JavaScript split does. -/
def splitChar (c : Char) : List Char → List (List Char)
  | [] => [[]]
  | x :: xs =>
    if x = c then [] :: splitChar c xs
    else
      match splitChar c xs with
      | [] => [[x]]
      | l :: ls => (x :: l) :: ls

/-- Split a string into lines.  ping.js splits on the regex matching a
newline optionally preceded by a carriage return and trims every piece
immediately afterwards; splitting on the newline alone is equivalent because
the trim removes the leftover carriage return. -/
def jsSplitLines (s : String) : List String :=
  (splitChar '\n' s.data).map (fun cs => String.mk cs)

/-! ## Data model -/

/-- The result of one navigation attempt, as built by visitOnce in ping.js:
numeric status (0 when no response object was available), final hostname
after redirects, the target URL hostname, rendered body text length, and
the document title. -/
structure Observation where
  status : Nat
  finalHost : String
  targetHost : String
  bodyLen : Nat
  title : String
deriving DecidableEq

/-- statusOk from isOk (ping.js line 59): status in [200, 400). -/
def statusOkB (o : Observation) : Bool :=
  decide (200 ≤ o.status) && decide (o.status < 400)

/-- domOk from isOk (ping.js line 60): bodyLen above 1200 and a title that
is truthy and non-blank after trimming. -/
def domOkB (o : Observation) : Bool :=
  decide (1200 < o.bodyLen) && !(decide (o.title = "")) &&
    decide (0 < (jsTrim o.title).length)

/-- hostOk from isOk (ping.js line 61): both hostnames truthy and the final
hostname ends with the target hostname. -/
def hostOkB (o : Observation) : Bool :=
  !(decide (o.finalHost = "")) && !(decide (o.targetHost = "")) &&
    jsEndsWith o.finalHost o.targetHost

/-- The Success Classifier isOk (ping.js lines 58 to 63):
statusOk OR (domOk AND hostOk) OR hostOk. -/
def isOk (o : Observation) : Bool :=
  statusOkB o || (domOkB o && hostOkB o) || hostOkB o

/-- The simpler predicate stated by claim C10: status in [200, 400) OR
(both hostnames non-empty and the final hostname suffix-matches the target
hostname). -/
def isOkSimple (o : Observation) : Bool :=
  (decide (200 ≤ o.status) && decide (o.status < 400)) ||
    (!(decide (o.finalHost = "")) && !(decide (o.targetHost = "")) &&
      jsEndsWith o.finalHost o.targetHost)

/-! ## URL source reader -/

/-- The line list computed by readUrls (ping.js lines 47 to 50): split the
text into lines, trim each line, keep the lines that are non-empty and do
not start with a hash. -/
def csvLines (csvText : String) : List String :=
  ((jsSplitLines csvText).map jsTrim).filter
    (fun l => decide (0 < l.length) && !(jsStartsWith l "#"))

/-- The error message thrown by readUrls when the header sentinel is
missing. -/
def errHeader : String := "The first line of urls.csv must contain a \x27url\x27 header."

/-- The text of a line before its first comma: JavaScript l.split(",")[0]. -/
def firstField (l : String) : String :=
  String.mk (l.data.takeWhile (fun c => !(decide (c = ','))))

/-- readUrls (ping.js lines 46 to 55): empty list when there are no kept
lines, an error when the first kept line does not contain the header
sentinel url (case-insensitively), otherwise one entry per remaining line,
the trimmed text before the first comma. -/
def readUrls (csvText : String) : Except String (List String) :=
  match csvLines csvText with
  | [] => Except.ok []
  | first :: rest =>
    if !(jsIncludes (jsToLower first) "url") then Except.error errHeader
    else Except.ok (rest.map (fun l => jsTrim (firstField l)))

/-- The reader exactly as claim C8 words it: each Target is the text before
the first comma of its line, with no further trimming.  Used to compare the
claim against readUrls. -/
def readUrlsClaim (csvText : String) : Except String (List String) :=
  match csvLines csvText with
  | [] => Except.ok []
  | first :: rest =>
    if jsIncludes (jsToLower first) "url" then
      Except.ok (rest.map (fun l => firstField l))
    else Except.error errHeader

/-- The reader as the amended claim C8 words it: each Target is the trimmed
text before the first comma of its line. -/
def readUrlsSpecA (csvText : String) : Except String (List String) :=
  match csvLines csvText with
  | [] => Except.ok []
  | first :: rest =>
    if jsIncludes (jsToLower first) "url" then
      Except.ok (rest.map (fun l => jsTrim (firstField l)))
    else Except.error errHeader

/-! ## Retry Controller -/

/-- MAX_RETRIES (ping.js line 31). -/
def MAX_RETRIES : Nat := 4

/-- The errorMsg computed in the catch arm of the retry loop for a thrown
Error carrying message m: the message when truthy, otherwise the string
conversion of a message-less Error. -/
def errOf (m : String) : String := if m = "" then "Error" else m

/-- The errorMsg set on an unhealthy classification (ping.js line 218). -/
def unhealthyMsg (o : Observation) : String :=
  "Unhealthy: status=" ++ (toString o.status ++ (", host=" ++ (o.finalHost ++
    (", body=" ++ (toString o.bodyLen ++ (", title=\"" ++
      (String.mk (o.title.data.take 60) ++ "\"")))))))

/-- The mutable locals of the per-URL while-loop in run (ping.js line 210):
attempt counter, success flag, last recorded status, last error message. -/
structure LoopState where
  attempt : Nat
  ok : Bool
  status : Nat
  errorMsg : String
deriving DecidableEq

/-- Initial loop state: attempt = 0, ok = false, status = 0, errorMsg
empty. -/
def initState : LoopState := ⟨0, false, 0, ""⟩

/-- One iteration body of the retry loop (ping.js lines 213 to 221).  The
navigation outcome of the n-th attempt (1-based) is nav n: either the
observation visitOnce returned, or the message of the caught fault.  On an
observation the status and success flag are updated and an unhealthy
message recorded when classification fails; on a fault only the error
message changes. -/
def retryStep (nav : Nat → Except String Observation) (s : LoopState) : LoopState :=
  match nav (s.attempt + 1) with
  | Except.ok probe =>
    { attempt := s.attempt + 1
      ok := isOk probe
      status := probe.status
      errorMsg := if isOk probe then s.errorMsg else unhealthyMsg probe }
  | Except.error m =>
    { attempt := s.attempt + 1
      ok := s.ok
      status := s.status
      errorMsg := errOf m }

/-- The while-loop of run (ping.js line 212), fuel-indexed: iterate the
step while attempt is below maxRetries and the visit has not succeeded.
With fuel = maxRetries this is exactly the source loop, since every
iteration increments the attempt counter.  The backoff sleep between
iterations does not change the loop state and is not modelled here. -/
def retryLoopFuel (nav : Nat → Except String Observation) (maxRetries : Nat) :
    Nat → LoopState → LoopState
  | 0, s => s
  | fuel + 1, s =>
    if s.attempt < maxRetries ∧ s.ok = false then
      retryLoopFuel nav maxRetries fuel (retryStep nav s)
    else s

/-- The record pushed onto results for one URL (ping.js lines 225 to 232). -/
structure VisitOutcome where
  timestamp : String
  url : String
  status : Nat
  ok : Bool
  attempts : Nat
  error : String
deriving DecidableEq

/-- The VisitOutcome pushed from a final loop state (ping.js lines 225 to
232): the error field is empty on success, else the last error message. -/
def mkOutcome (now url : String) (s : LoopState) : VisitOutcome :=
  ⟨now, url, s.status, s.ok, s.attempt, if s.ok then "" else s.errorMsg⟩

/-- Run the full retry loop for one URL and build its VisitOutcome.  The
completion timestamp is passed in as now. -/
def visitUrl (nav : Nat → Except String Observation) (maxRetries : Nat)
    (now url : String) : VisitOutcome :=
  mkOutcome now url (retryLoopFuel nav maxRetries maxRetries initState)

/-! ## Authenticator and run -/

/-- The message of the error thrown when the post-wait URL still shows the
login surface (ping.js line 153). -/
def loginFailMsgInner : String := "Login failed - still on login page"

/-- loginToTokopedia, modelled by its verification step as a function of
the URL observed after the login submission and wait window (ping.js lines
148 to 162): if that URL still includes login, the inner error is thrown
and rethrown by the catch with a Login failed prefix; otherwise the login
succeeds.  Selector and navigation faults inside the try block are effects
of the external browser and are outside this embedding. -/
def loginToTokopedia (postWaitUrl : String) : Except String Unit :=
  if jsIncludes postWaitUrl "login" then
    Except.error ("Login failed: " ++ loginFailMsgInner)
  else Except.ok ()

/-- The summary written when readUrls yields no URLs (ping.js line 171). -/
def noUrlsMsg : String := "No URLs found in urls.csv (after header)."

/-- The plain-text summary of the normal path (ping.js lines 247 to 258). -/
def buildSummary (now : String) (results : List VisitOutcome) : String :=
  let total := results.length
  let success := (results.filter (fun r => r.ok)).length
  let fail := total - success
  let failList := String.intercalate "\n"
    ((results.filter (fun r => !r.ok)).map
      (fun r => "- " ++ r.url ++ " (status " ++ toString r.status ++ ")"))
  String.intercalate "\n"
    ["Daily Browser Visit Summary",
     "Run time (UTC): " ++ now,
     "Total URLs: " ++ toString total,
     "Successful: " ++ toString success,
     "Unsuccessful: " ++ toString fail,
     if 0 < fail then "\nFailures:\n" ++ failList else ""]

/-- The possible terminations of run: the early return with the no-URLs
summary, the early return with the login-failure summary, or the normal
report (the ordered VisitOutcome list plus summary). -/
inductive RunResult where
  | noUrls (summary : String)
  | loginFailure (summary : String)
  | report (outcomes : List VisitOutcome) (summary : String)
deriving DecidableEq

/-- The VisitOutcomes a run termination carries; the two early returns
carry none. -/
def outcomesOf : RunResult → List VisitOutcome
  | RunResult.report o _ => o
  | _ => []

/-- The normal visiting path of run: one VisitOutcome per URL in order,
then the summary. -/
def mkReport (urls : List String) (nav : String → Nat → Except String Observation)
    (now : String) : RunResult :=
  let results := urls.map (fun u => visitUrl (nav u) MAX_RETRIES now u)
  RunResult.report results (buildSummary now results)

/-- run (ping.js lines 165 to 262): read the URL list (propagating the
header error), return early with the no-URLs summary when the list is
empty, run the login sub-flow when credentials are configured and return
early with the login-failure summary when it fails, otherwise visit every
URL.  Browser construction and artifact writing are external effects; the
navigation outcomes are supplied by nav (per URL, per 1-based attempt) and
timestamps by now. -/
def run (csvText : String) (requireLogin : Bool) (postWaitUrl : String)
    (nav : String → Nat → Except String Observation) (now : String) :
    Except String RunResult :=
  match readUrls csvText with
  | Except.error e => Except.error e
  | Except.ok urls =>
    if urls.isEmpty then Except.ok (RunResult.noUrls noUrlsMsg)
    else if requireLogin then
      match loginToTokopedia postWaitUrl with
      | Except.error msg =>
        Except.ok (RunResult.loginFailure
          ("Login failed: " ++ msg ++ "\nCannot visit authenticated URLs without login."))
      | Except.ok _ => Except.ok (mkReport urls nav now)
    else Except.ok (mkReport urls nav now)

/-! ## Backoff -/

/-- backoffMs (ping.js line 39): 1000 times 2 to the power attempt - 1,
plus the sampled jitter.  The jitter floor(random times 500) is passed in
explicitly; it always lies in [0, 500). -/
def backoffMs (attempt jitter : Nat) : Nat := 1000 * 2 ^ (attempt - 1) + jitter

/-- The expected value of backoffMs over the uniformly sampled jitter
(each of the 500 integer jitter values has probability 1 in 500). -/
def expectedBackoff (attempt : Nat) : ℚ :=
  1000 * 2 ^ (attempt - 1) + ((Finset.range 500).sum (fun j => (j : ℚ))) / 500

/-! ## Helper lemmas -/

theorem data_append_eq (a b : String) : (a ++ b).data = a.data ++ b.data := by
  cases a
  cases b
  rfl

theorem append_ne_empty_left (a b : String) (h : a ≠ "") : a ++ b ≠ "" := by
  intro hc
  apply h
  have hd : (a ++ b).data = ("" : String).data := congrArg String.data hc
  rw [data_append_eq] at hd
  have ha : a.data = [] := (List.append_eq_nil.mp hd).1
  cases a
  simpa using congrArg String.mk ha

theorem unhealthyMsg_ne_empty (o : Observation) : unhealthyMsg o ≠ "" := by
  apply append_ne_empty_left
  decide

theorem errOf_ne_empty (m : String) : errOf m ≠ "" := by
  unfold errOf
  by_cases h : m = ""
  · simp [h]
  · simp [h]

/-! ## Claims about the Success Classifier -/

/-- Claim C1: every Observation whose status lies in [200, 400) is
classified as successful by isOk, whatever the other fields are. -/
theorem isOk_status_range_ok (o : Observation)
    (h1 : 200 ≤ o.status) (h2 : o.status < 400) : isOk o = true := by
  unfold isOk statusOkB
  rw [decide_eq_true h1, decide_eq_true h2]
  simp

theorem isOk_status_range_ok_witness :
    200 ≤ 250 ∧ 250 < 400 ∧ isOk ⟨250, "", "", 0, ""⟩ = true :=
  ⟨by decide, by decide,
    isOk_status_range_ok ⟨250, "", "", 0, ""⟩ (by decide) (by decide)⟩

/-- Claim C2: every Observation whose final and target hostnames are both
non-empty with the final hostname suffix-matching the target hostname is
classified as successful by isOk, whatever the status, body length and
title are. -/
theorem isOk_host_match_ok (o : Observation)
    (hf : o.finalHost ≠ "") (ht : o.targetHost ≠ "")
    (he : jsEndsWith o.finalHost o.targetHost = true) : isOk o = true := by
  unfold isOk hostOkB
  rw [decide_eq_false hf, decide_eq_false ht, he]
  simp

theorem isOk_host_match_ok_witness :
    ("m.tokopedia.com" : String) ≠ "" ∧ ("tokopedia.com" : String) ≠ "" ∧
      jsEndsWith "m.tokopedia.com" "tokopedia.com" = true ∧
      isOk ⟨0, "m.tokopedia.com", "tokopedia.com", 0, ""⟩ = true :=
  ⟨by decide, by decide, by decide,
    isOk_host_match_ok ⟨0, "m.tokopedia.com", "tokopedia.com", 0, ""⟩
      (by decide) (by decide) (by decide)⟩

/-- Claim C7: for an Observation whose target hostname is the empty string
(an unparsable target URL), isOk returns success exactly when the status
lies in [200, 400); the hostname rules cannot fire. -/
theorem empty_target_host_requires_status (o : Observation)
    (h : o.targetHost = "") :
    isOk o = true ↔ (200 ≤ o.status ∧ o.status < 400) := by
  unfold isOk hostOkB statusOkB
  rw [h]
  simp

theorem empty_target_host_requires_status_witness :
    (("" : String) = "") ∧
      (isOk ⟨503, "tokopedia.com", "", 9999, "Toko"⟩ = true ↔
        (200 ≤ 503 ∧ 503 < 400)) :=
  ⟨rfl, empty_target_host_requires_status ⟨503, "tokopedia.com", "", 9999, "Toko"⟩ rfl⟩

/-- Claim C10: isOk agrees with the simpler predicate status-in-range OR
hostname-suffix-match on every Observation; the DOM conjunct never changes
the verdict because the rule using it also requires the hostname rule. -/
theorem isOk_eq_isOkSimple (o : Observation) : isOk o = isOkSimple o := by
  unfold isOk isOkSimple statusOkB domOkB hostOkB
  generalize (decide (200 ≤ o.status) && decide (o.status < 400)) = a
  generalize (decide (1200 < o.bodyLen) && !(decide (o.title = "")) &&
    decide (0 < (jsTrim o.title).length)) = b
  generalize (!(decide (o.finalHost = "")) && !(decide (o.targetHost = "")) &&
    jsEndsWith o.finalHost o.targetHost) = c
  revert a b c
  decide

/-! ## Claim about the backoff schedule -/

/-- Claim C5: for every 1-based attempt ordinal n and sampled jitter below
the 500 ms ceiling, the backoff is at least 1000 times 2 to the n - 1, and
the expected backoff is non-decreasing in the attempt ordinal. -/
theorem backoff_lower_bound_and_expected_monotone (n j m : Nat)
    (hn : 1 ≤ n) (hj : j < 500) (hm : n ≤ m) :
    1000 * 2 ^ (n - 1) ≤ backoffMs n j ∧
      expectedBackoff n ≤ expectedBackoff m := by
  constructor
  · exact Nat.le_add_right _ _
  · unfold expectedBackoff
    have h2 : (2 : ℚ) ^ (n - 1) ≤ (2 : ℚ) ^ (m - 1) :=
      pow_le_pow_right₀ (by norm_num) (Nat.sub_le_sub_right hm 1)
    have h3 : (1000 : ℚ) * 2 ^ (n - 1) ≤ 1000 * 2 ^ (m - 1) := by
      apply mul_le_mul_of_nonneg_left h2
      norm_num
    exact add_le_add_right h3 _

theorem backoff_lower_bound_and_expected_monotone_witness :
    1 ≤ 2 ∧ 3 < 500 ∧ 2 ≤ 5 ∧
      (1000 * 2 ^ (2 - 1) ≤ backoffMs 2 3 ∧
        expectedBackoff 2 ≤ expectedBackoff 5) :=
  ⟨by decide, by decide, by decide,
    backoff_lower_bound_and_expected_monotone 2 3 5 (by decide) (by decide) (by decide)⟩

/-! ## Retry Controller lemmas -/

theorem retryStep_attempt (nav : Nat → Except String Observation) (s : LoopState) :
    (retryStep nav s).attempt = s.attempt + 1 := by
  cases hn : nav (s.attempt + 1) <;> simp [retryStep, hn]

theorem retryStep_errorMsg_ne (nav : Nat → Except String Observation) (s : LoopState)
    (h : (retryStep nav s).ok = false) : (retryStep nav s).errorMsg ≠ "" := by
  cases hn : nav (s.attempt + 1) with
  | error m =>
    simp only [retryStep, hn]
    exact errOf_ne_empty m
  | ok probe =>
    simp only [retryStep, hn] at h ⊢
    simp only [h, if_false]
    exact unhealthyMsg_ne_empty probe

theorem loop_step (nav : Nat → Except String Observation) (mr fuel : Nat)
    (s : LoopState) (h1 : s.attempt < mr) (h2 : s.ok = false) :
    retryLoopFuel nav mr (fuel + 1) s = retryLoopFuel nav mr fuel (retryStep nav s) := by
  simp [retryLoopFuel, h1, h2]

theorem loop_ok_stop (nav : Nat → Except String Observation) (mr fuel : Nat)
    (s : LoopState) (h : s.ok = true) : retryLoopFuel nav mr fuel s = s := by
  cases fuel with
  | zero => rfl
  | succ fuel => simp [retryLoopFuel, h]

theorem loop_attempt_ge (nav : Nat → Except String Observation) (mr : Nat) :
    ∀ (fuel : Nat) (s : LoopState), s.attempt ≤ (retryLoopFuel nav mr fuel s).attempt := by
  intro fuel
  induction fuel with
  | zero => intro s; exact Nat.le_refl _
  | succ fuel ih =>
    intro s
    by_cases hc : s.attempt < mr ∧ s.ok = false
    · rw [loop_step nav mr fuel s hc.1 hc.2]
      exact Nat.le_trans (by rw [retryStep_attempt]; omega) (ih (retryStep nav s))
    · simp [retryLoopFuel, hc]

theorem loop_attempt_le (nav : Nat → Except String Observation) (mr : Nat) :
    ∀ (fuel : Nat) (s : LoopState), s.attempt ≤ mr →
      (retryLoopFuel nav mr fuel s).attempt ≤ mr := by
  intro fuel
  induction fuel with
  | zero => intro s h; exact h
  | succ fuel ih =>
    intro s h
    by_cases hc : s.attempt < mr ∧ s.ok = false
    · rw [loop_step nav mr fuel s hc.1 hc.2]
      exact ih (retryStep nav s) (by rw [retryStep_attempt]; omega)
    · simp only [retryLoopFuel, hc, if_false]
      exact h

theorem loop_errorMsg_ne (nav : Nat → Except String Observation) (mr : Nat) :
    ∀ (fuel : Nat) (s : LoopState), (s.ok = false → s.errorMsg ≠ "") →
      ((retryLoopFuel nav mr fuel s).ok = false →
        (retryLoopFuel nav mr fuel s).errorMsg ≠ "") := by
  intro fuel
  induction fuel with
  | zero => intro s h; exact h
  | succ fuel ih =>
    intro s h
    by_cases hc : s.attempt < mr ∧ s.ok = false
    · rw [loop_step nav mr fuel s hc.1 hc.2]
      exact ih (retryStep nav s) (retryStep_errorMsg_ne nav s)
    · simp only [retryLoopFuel, hc, if_false]
      exact h

/-! ## Claims about the Retry Controller -/

/-- Claim C3: every VisitOutcome the retry loop produces has an attempt
count between 1 and the configured maximum inclusive, and its error string
is empty exactly when the visit succeeded. -/
theorem visit_outcome_invariant (nav : Nat → Except String Observation)
    (mr : Nat) (now url : String) (hmr : 1 ≤ mr) :
    1 ≤ (visitUrl nav mr now url).attempts ∧
      (visitUrl nav mr now url).attempts ≤ mr ∧
      ((visitUrl nav mr now url).error = "" ↔ (visitUrl nav mr now url).ok = true) := by
  obtain ⟨k, rfl⟩ : ∃ k, mr = k + 1 := ⟨mr - 1, by omega⟩
  unfold visitUrl
  rw [loop_step nav (k + 1) k initState (by simp [initState]) rfl]
  have ha1 : (retryStep nav initState).attempt = 1 := by
    rw [retryStep_attempt]
    rfl
  refine ⟨?_, ?_, ?_⟩
  · show 1 ≤ (retryLoopFuel nav (k + 1) k (retryStep nav initState)).attempt
    calc 1 = (retryStep nav initState).attempt := ha1.symm
      _ ≤ _ := loop_attempt_ge nav (k + 1) k (retryStep nav initState)
  · show (retryLoopFuel nav (k + 1) k (retryStep nav initState)).attempt ≤ k + 1
    exact loop_attempt_le nav (k + 1) k (retryStep nav initState) (by omega)
  · by_cases hok : (retryLoopFuel nav (k + 1) k (retryStep nav initState)).ok = true
    · simp [mkOutcome, hok]
    · have hok' : (retryLoopFuel nav (k + 1) k (retryStep nav initState)).ok = false :=
        Bool.not_eq_true _ ▸ eq_false_of_ne_true hok
      have hne : (retryLoopFuel nav (k + 1) k (retryStep nav initState)).errorMsg ≠ "" :=
        loop_errorMsg_ne nav (k + 1) k (retryStep nav initState)
          (retryStep_errorMsg_ne nav initState) hok'
      simp [mkOutcome, hok', hne]

theorem visit_outcome_invariant_witness :
    1 ≤ 4 ∧
      (1 ≤ (visitUrl (fun _ => (Except.error "boom" : Except String Observation))
          4 "t" "u").attempts ∧
        (visitUrl (fun _ => (Except.error "boom" : Except String Observation))
          4 "t" "u").attempts ≤ 4 ∧
        ((visitUrl (fun _ => (Except.error "boom" : Except String Observation))
            4 "t" "u").error = "" ↔
          (visitUrl (fun _ => (Except.error "boom" : Except String Observation))
            4 "t" "u").ok = true)) :=
  ⟨by decide,
    visit_outcome_invariant (fun _ => (Except.error "boom" : Except String Observation))
      4 "t" "u" (by decide)⟩

/-- Counterexample to claim C4 as stated: after the healthy-looking but
unhealthy first attempt (status 503), attempts 2 to 4 all raise the fault
boom, which the loop catches; yet the resulting VisitOutcome carries status
503, not the status 0 that the claim says faults force. -/
theorem fault_status_not_forced_zero :
    visitUrl (fun n => if n = 1 then
        Except.ok ⟨503, "blocked.example", "tokopedia.com", 10, ""⟩
      else Except.error "boom") MAX_RETRIES "t" "u" =
      ⟨"t", "u", 503, false, 4, "boom"⟩ ∧ (503 : Nat) ≠ 0 :=
  ⟨by decide, by decide⟩

/-- Claim C4, amended: a navigation fault on an attempt is caught as a
failed attempt whose diagnostic is the fault message, with the recorded
status left unchanged by the faulting attempt (it stays 0 only when no
earlier attempt observed a response); the fault never aborts the loop, and
a later attempt can still succeed: a throw on attempt 1 followed by a
successful observation on attempt 2 yields a VisitOutcome with attempts 2
and success true. -/
theorem fault_caught_status_retained_and_recovery
    (nav nav2 : Nat → Except String Observation) (s : LoopState)
    (m m2 : String) (obs : Observation) (mr : Nat) (now url : String)
    (hc : nav (s.attempt + 1) = Except.error m)
    (h1 : nav2 1 = Except.error m2) (h2 : nav2 2 = Except.ok obs)
    (hok : isOk obs = true) (hmr : 2 ≤ mr) :
    retryStep nav s = ⟨s.attempt + 1, s.ok, s.status, errOf m⟩ ∧
      visitUrl nav2 mr now url = ⟨now, url, obs.status, true, 2, ""⟩ := by
  constructor
  · simp [retryStep, hc]
  · obtain ⟨k, rfl⟩ : ∃ k, mr = k + 2 := ⟨mr - 2, by omega⟩
    have e0 : retryStep nav2 initState = ⟨1, false, 0, errOf m2⟩ := by
      simp [retryStep, initState, h1]
    have e1 : retryStep nav2 (⟨1, false, 0, errOf m2⟩ : LoopState) =
        ⟨2, true, obs.status, errOf m2⟩ := by
      simp [retryStep, h2, hok]
    have estep : retryLoopFuel nav2 (k + 2) (k + 2) initState =
        ⟨2, true, obs.status, errOf m2⟩ := by
      rw [show (k + 2) = (k + 1) + 1 from rfl]
      rw [loop_step nav2 ((k + 1) + 1) (k + 1) initState (by simp [initState]) rfl]
      rw [e0]
      rw [loop_step nav2 ((k + 1) + 1) k (⟨1, false, 0, errOf m2⟩ : LoopState)
        (by show (1 : Nat) < (k + 1) + 1; omega) rfl]
      rw [e1]
      exact loop_ok_stop nav2 ((k + 1) + 1) k _ rfl
    simp [visitUrl, estep, mkOutcome]

theorem fault_caught_status_retained_and_recovery_witness :
    retryStep (fun _ => (Except.error "x" : Except String Observation)) initState =
        ⟨initState.attempt + 1, initState.ok, initState.status, errOf "x"⟩ ∧
      visitUrl (fun n => if n = 1 then (Except.error "boom" : Except String Observation)
          else Except.ok ⟨200, "tokopedia.com", "tokopedia.com", 5000, "Toko"⟩)
        4 "t" "u" =
        ⟨"t", "u",
          (⟨200, "tokopedia.com", "tokopedia.com", 5000, "Toko"⟩ : Observation).status,
          true, 2, ""⟩ :=
  fault_caught_status_retained_and_recovery
    (fun _ => (Except.error "x" : Except String Observation))
    (fun n => if n = 1 then (Except.error "boom" : Except String Observation)
      else Except.ok ⟨200, "tokopedia.com", "tokopedia.com", 5000, "Toko"⟩)
    initState "x" "boom" ⟨200, "tokopedia.com", "tokopedia.com", 5000, "Toko"⟩
    4 "t" "u" rfl rfl rfl (by decide) (by decide)

/-! ## Claims about run -/

/-- Claim C6: when authentication is configured and the Authenticator ends
Failed (the post-wait URL still shows the login surface), run visits no
Target at all: it terminates with zero VisitOutcomes and the dedicated
login-failure summary instead of a report. -/
theorem login_failed_skips_all_visits (csvText postWaitUrl now : String)
    (requireLogin : Bool) (nav : String → Nat → Except String Observation)
    (urls : List String)
    (hreq : requireLogin = true)
    (hurls : readUrls csvText = Except.ok urls) (hne : urls ≠ [])
    (hlogin : jsIncludes postWaitUrl "login" = true) :
    run csvText requireLogin postWaitUrl nav now =
      Except.ok (RunResult.loginFailure
        ("Login failed: " ++ ("Login failed: " ++ loginFailMsgInner) ++
          "\nCannot visit authenticated URLs without login.")) ∧
      outcomesOf (RunResult.loginFailure
        ("Login failed: " ++ ("Login failed: " ++ loginFailMsgInner) ++
          "\nCannot visit authenticated URLs without login.")) = [] := by
  constructor
  · cases urls with
    | nil => exact absurd rfl hne
    | cons u us => simp [run, hurls, hreq, loginToTokopedia, hlogin]
  · rfl

theorem login_failed_skips_all_visits_witness :
    (true = true) ∧
      readUrls "url\nhttps://www.tokopedia.com/abc" =
        Except.ok ["https://www.tokopedia.com/abc"] ∧
      (["https://www.tokopedia.com/abc"] : List String) ≠ [] ∧
      jsIncludes "https://www.tokopedia.com/login" "login" = true ∧
      (run "url\nhttps://www.tokopedia.com/abc" true "https://www.tokopedia.com/login"
          (fun _ _ => Except.error "e") "now" =
        Except.ok (RunResult.loginFailure
          ("Login failed: " ++ ("Login failed: " ++ loginFailMsgInner) ++
            "\nCannot visit authenticated URLs without login.")) ∧
        outcomesOf (RunResult.loginFailure
          ("Login failed: " ++ ("Login failed: " ++ loginFailMsgInner) ++
            "\nCannot visit authenticated URLs without login.")) = []) :=
  ⟨rfl, rfl, by decide, by decide,
    login_failed_skips_all_visits "url\nhttps://www.tokopedia.com/abc"
      "https://www.tokopedia.com/login" "now" true (fun _ _ => Except.error "e")
      ["https://www.tokopedia.com/abc"] rfl rfl (by decide) (by decide)⟩

/-- Counterexample to claim C9 as stated: on a header-only URL source the
run takes the early no-URLs return; its summary is the no-URLs message,
which does not state Total URLs: 0, and the report path is never reached. -/
theorem header_only_summary_counterexample :
    run "url" false "x" (fun _ _ => Except.error "e") "now" =
      Except.ok (RunResult.noUrls noUrlsMsg) ∧
      jsIncludes noUrlsMsg "Total URLs: 0" = false :=
  ⟨rfl, by decide⟩

/-- Claim C9, amended: when the URL source yields zero Targets (for
instance only a header line), run terminates early with zero VisitOutcomes
and a summary stating No URLs found in urls.csv (after header)., instead of
a RunReport; the Total URLs line of the normal summary is not produced. -/
theorem no_urls_early_return (csvText postWaitUrl now : String)
    (requireLogin : Bool) (nav : String → Nat → Except String Observation)
    (h : readUrls csvText = Except.ok ([] : List String)) :
    run csvText requireLogin postWaitUrl nav now =
      Except.ok (RunResult.noUrls noUrlsMsg) ∧
      outcomesOf (RunResult.noUrls noUrlsMsg) = [] := by
  constructor
  · simp [run, h]
  · rfl

theorem no_urls_early_return_witness :
    readUrls "url" = Except.ok ([] : List String) ∧
      (run "url" true "https://x.example" (fun _ _ => Except.error "e") "now" =
        Except.ok (RunResult.noUrls noUrlsMsg) ∧
        outcomesOf (RunResult.noUrls noUrlsMsg) = []) :=
  ⟨rfl, no_urls_early_return "url" "https://x.example" "now" true
    (fun _ _ => Except.error "e") rfl⟩

/-! ## Claim about the URL source reader -/

/-- Counterexample to claim C8 as stated: on the data line a ,b the text
before the first comma is the two characters a and space, but readUrls
returns the trimmed field a; the claim omits the final trim applied by the
code. -/
theorem readUrls_field_trimmed_counterexample :
    readUrls "url\na ,b" = Except.ok ["a"] ∧
      readUrlsClaim "url\na ,b" = Except.ok ["a "] ∧
      firstField "a ,b" = "a " ∧ ("a" : String) ≠ "a " :=
  ⟨rfl, rfl, by decide, by decide⟩

/-- Claim C8, amended: readUrls raises its header error exactly when a
first trimmed non-empty non-comment line exists and does not contain the
substring url case-insensitively; otherwise it returns one Target per
subsequent such line, each Target being the trimmed text before that line
first comma, and the empty list when there are no data lines. -/
theorem readUrls_matches_amended_spec (csvText : String) :
    readUrls csvText = readUrlsSpecA csvText := by
  unfold readUrls readUrlsSpecA
  cases csvLines csvText with
  | nil => rfl
  | cons first rest => cases h : jsIncludes (jsToLower first) "url" <;> simp [h]

end TokopedCron
